import Mathlib

/-!
Shallow embedding of the stock-screener program in src/app.py.

The program is a single linear pipeline: a Streamlit button handler reads a
ticker, fetch_fundamental_data merges four upstream JSON lookups into a flat
snapshot, and analyze_with_gpt sends a prompt and extracts a target price
from the model output with a regular expression.

Modelling conventions, each justified against the Python source:
  - JSON bodies are association lists of string keys to string values
    (Alpha Vantage returns every number as a JSON string); dict.get is
    List.lookup on the association list.
  - Python float values are modelled as rationals; the decimal literal
    parser pyFloat? models the float(...) conversion on the decimal strings
    the providers send, and pyInt? models int(...) on integer strings.
  - Fallible Python code (float() on a malformed string, list indexing on
    an empty list, an unguarded network call) is modelled with Except PyErr;
    a raised exception is Except.error.
  - Network input is given to the embedding as data: each upstream response
    is a parameter, wrapped in Except Unit so that a transport failure of an
    unguarded requests.get call can be represented.
  - round(x, 2) is modelled as round half to even at two decimals, and
    str() of the rounded float by printing the exact decimal with at least
    one fractional digit, which agrees with CPython on the values produced
    here.
-/

/-- Python dict.get on a JSON object modelled as an association list. -/
def pyGet (d : List (String × String)) (k : String) : Option String :=
  List.lookup k d

/-- Value of a list of decimal digit characters. -/
def digitsVal (l : List Char) : Nat :=
  l.foldl (fun a c => a * 10 + (c.toNat - 48)) 0

/-- Core of the Python float(...) conversion: an unsigned decimal literal,
with an optional fractional part, as in the numeric strings Alpha Vantage
returns. Returns none where CPython raises ValueError. -/
def pyFloatCore (l : List Char) : Option ℚ :=
  let ip := l.takeWhile Char.isDigit
  let rest := l.dropWhile Char.isDigit
  match rest with
  | [] => if ip.isEmpty then none else some ((digitsVal ip : ℚ))
  | '.' :: fr =>
    if fr.all Char.isDigit ∧ ¬(ip.isEmpty ∧ fr.isEmpty) then
      some ((digitsVal ip : ℚ) + (digitsVal fr : ℚ) / ((10 : ℚ) ^ fr.length))
    else none
  | _ => none

/-- Python float(...) on a string, with an optional leading sign. -/
def pyFloat? (s : String) : Option ℚ :=
  match s.toList with
  | '-' :: r => (pyFloatCore r).map (fun q => -q)
  | '+' :: r => pyFloatCore r
  | l => pyFloatCore l

/-- Core of the Python int(...) conversion on a digit string. -/
def pyIntCore (l : List Char) : Option Int :=
  if l ≠ [] ∧ l.all Char.isDigit then some ((digitsVal l : Int)) else none

/-- Python int(...) on a string, with an optional leading sign. -/
def pyInt? (s : String) : Option Int :=
  match s.toList with
  | '-' :: r => (pyIntCore r).map (fun n => -n)
  | '+' :: r => pyIntCore r
  | l => pyIntCore l

/-- Python int(...) on a float: truncation toward zero. -/
def pyTrunc (q : ℚ) : Int :=
  if q < 0 then -((-q).floor) else q.floor

/-- Round half to even to the nearest integer, as CPython round does. -/
def roundHalfEven (q : ℚ) : Int :=
  let f := q.floor
  let r := q - (f : ℚ)
  if r < 1/2 then f
  else if r > 1/2 then f + 1
  else if f % 2 = 0 then f else f + 1

/-- Python round(x, 2). -/
def pyRound2 (q : ℚ) : ℚ := ((roundHalfEven (q * 100) : ℚ)) / 100

/-- Digit grouping used by the comma format specifier: split the reversed
digit list into blocks of three. -/
def chunk3 (l : List Char) : List (List Char) :=
  match l with
  | [] => []
  | [a] => [[a]]
  | [a, b] => [[a, b]]
  | a :: b :: c :: rest => [a, b, c] :: chunk3 rest

/-- The Python format f-string with the comma specifier on an integer. -/
def pyCommaFmt (n : Int) : String :=
  let ds := (toString n.natAbs).toList
  let grouped := ((chunk3 ds.reverse).map List.reverse).reverse
  (if n < 0 then ("-") else ("")) ++
    String.intercalate (",") (grouped.map (fun g => String.mk g))

/-- Python str() of a float that is an exact multiple of 1/100, as produced
by round(x, 2) here: sign, integer part, and one or two fractional digits
with the trailing zero of the hundredths place dropped. -/
def pyStrFloat (q : ℚ) : String :=
  let n : Int := (q * 100).floor
  let m := n.natAbs
  let ip := m / 100
  let fr := m % 100
  let sign := if q < 0 then ("-") else ("")
  if fr = 0 then sign ++ toString ip ++ (".0")
  else if fr % 10 = 0 then sign ++ toString ip ++ (".") ++ toString (fr / 10)
  else sign ++ toString ip ++ (".") ++
    (if fr < 10 then ("0") else ("")) ++ toString fr

/-- A displayable snapshot value: Python str or Python float. -/
inductive Cell
  | str (s : String)
  | num (q : ℚ)
deriving DecidableEq

/-- Python exceptions the embedded code can raise. -/
inductive PyErr
  | indexError
  | valueError
  | netError
deriving DecidableEq

/-- An Alpha Vantage statement response: the annualReports key is either
absent or holds a list of report objects. -/
structure AVStmt where
  annualReports : Option (List (List (String × String)))

/-- An FMP profile response: HTTP status code and a body that is either a
list of profile objects or some other JSON value (body none). -/
structure FmpResp where
  status : Nat
  body : Option (List (List (String × String)))

/-- The upstream responses consumed by one fetch_fundamental_data call.
Except.error models a raised transport or JSON-decode failure of the
corresponding requests.get call. -/
structure FetchIn where
  overview : Except Unit (List (String × String))
  fmpProfile : Except Unit FmpResp
  sectorTable : Except Unit (List (String × ℚ))
  income : Except Unit AVStmt
  balance : Except Unit AVStmt

/-- The flat metric-name-to-value mapping returned by the aggregator. -/
abbrev Snapshot := List (String × Cell)

/-- Lines 30-32 of app.py: response.get of annualReports with default
containing one empty dict, then indexing at 0. An empty present list makes
the Python indexing raise IndexError. -/
def latestReport (resp : AVStmt) : Except PyErr (List (String × String)) :=
  match resp.annualReports with
  | none => Except.ok []
  | some [] => Except.error PyErr.indexError
  | some (r :: _) => Except.ok r

/-- Lines 35-36 of app.py: float(d.get(k, "0")) if d.get(k) else None.
A falsy lookup (absent key or empty string) gives None; a present value
is passed to float(), which raises ValueError when it is not numeric. -/
def getNum (rep : List (String × String)) (k : String) :
    Except PyErr (Option ℚ) :=
  match pyGet rep k with
  | none => Except.ok none
  | some s =>
    if s = "" then Except.ok none
    else
      match pyFloat? s with
      | some q => Except.ok (some q)
      | none => Except.error PyErr.valueError

/-- Line 37 of app.py: total_assets - total_liabilities if
total_assets and total_liabilities else None, with Python float
truthiness, so a zero operand also yields None. -/
def shareholderEquity (ta tl : Option ℚ) : Option ℚ :=
  match ta, tl with
  | some a, some l => if a = 0 ∨ l = 0 then none else some (a - l)
  | _, _ => none

/-- The value of the debt_equity_ratio variable of line 38: a float, or
the N/A sentinel string. -/
inductive DEValue
  | na
  | val (q : ℚ)
deriving DecidableEq

/-- Line 38 of app.py: total_liabilities / shareholder_equity if
shareholder_equity else N/A. Python float truthiness: None and 0.0 are
falsy; a negative equity is truthy and is divided by. -/
def debtEquityValue (tl se : Option ℚ) : DEValue :=
  match se with
  | some e => if e = 0 then DEValue.na else DEValue.val ((tl.getD 0) / e)
  | none => DEValue.na

/-- Line 54 of app.py: str(round(x, 2)) if x != N/A else N/A. -/
def deCell (r : DEValue) : String :=
  match r with
  | DEValue.na => ("N/A")
  | DEValue.val q => pyStrFloat (pyRound2 q)

/-- Lines 47-49 of app.py: the comma-formatted integer cell
f-string of int(d.get(k, "0")) if d.get(k) else N/A. int() on a
non-integer string raises ValueError. -/
def strIntCell (d : List (String × String)) (k : String) :
    Except PyErr String :=
  match pyGet d k with
  | none => Except.ok ("N/A")
  | some s =>
    if s = "" then Except.ok ("N/A")
    else
      match pyInt? s with
      | some n => Except.ok (pyCommaFmt n)
      | none => Except.error PyErr.valueError

/-- Lines 50-51 of app.py: f-string of int(x) with comma grouping if x
else N/A, where x is an Option float, so both None and 0.0 render as the
sentinel. -/
def floatCell (x : Option ℚ) : String :=
  match x with
  | some q => if q = 0 then ("N/A") else pyCommaFmt (pyTrunc q)
  | none => ("N/A")

/-- Lines 62-75 of app.py, fetch_fmp_sector: on HTTP 200 with a truthy
list body, read sector and industry of the first element with N/A
defaults; otherwise return the sentinel pair. -/
def fetch_fmp_sector (r : FmpResp) : String × String :=
  if r.status = 200 then
    match r.body with
    | some (p :: _) =>
      ((pyGet p ("sector")).getD ("N/A"), (pyGet p ("industry")).getD ("N/A"))
    | _ => (("N/A"), ("N/A"))
  else (("N/A"), ("N/A"))

/-- Lines 78-100 of app.py, fetch_sector_pe_ratio: a guarded request; on
failure or an empty table the sentinel, otherwise a dict comprehension
keyed by exact sector string (later entries override earlier ones) and an
exact membership test. -/
def fetch_sector_pe_ratio (sector : String)
    (resp : Except Unit (List (String × ℚ))) : Cell :=
  match resp with
  | Except.error _ => Cell.str ("N/A")
  | Except.ok data =>
    match data with
    | [] => Cell.str ("N/A")
    | _ :: _ =>
      match List.lookup sector data.reverse with
      | some pe => Cell.num pe
      | none => Cell.str ("N/A")

/-- Lines 41-57 of app.py: the snapshot dict literal, given the already
computed intermediate values. -/
def snapshotOf (ticker : String) (ov : List (String × String))
    (fmpr : FmpResp) (sect : Except Unit (List (String × ℚ)))
    (ta tl : Option ℚ) (mcap rev ni : String) : Snapshot :=
  [ (("Ticker"), Cell.str ticker),
    (("Company Name"), Cell.str ((pyGet ov ("Name")).getD ("N/A"))),
    (("Sector"), Cell.str (fetch_fmp_sector fmpr).1),
    (("Industry"), Cell.str (fetch_fmp_sector fmpr).2),
    (("Sector P/E"), fetch_sector_pe_ratio (fetch_fmp_sector fmpr).1 sect),
    (("Market Cap"), Cell.str mcap),
    (("Revenue"), Cell.str rev),
    (("Net Income"), Cell.str ni),
    (("Total Assets"), Cell.str (floatCell ta)),
    (("Total Liabilities"), Cell.str (floatCell tl)),
    (("P/E Ratio"), Cell.str ((pyGet ov ("PERatio")).getD ("N/A"))),
    (("EPS"), Cell.str ((pyGet ov ("EPS")).getD ("N/A"))),
    (("Debt/Equity Ratio"),
      Cell.str (deCell (debtEquityValue tl (shareholderEquity ta tl)))),
    (("ROE"), Cell.str ((pyGet ov ("ReturnOnEquityTTM")).getD ("N/A"))),
    (("ROA"), Cell.str ((pyGet ov ("ReturnOnAssetsTTM")).getD ("N/A"))) ]

/-- An unguarded requests.get(...).json(): a transport or decode failure
raises and propagates. -/
def toPy {α : Type} : Except Unit α → Except PyErr α
  | Except.error _ => Except.error PyErr.netError
  | Except.ok a => Except.ok a

/-- Lines 14-59 of app.py, fetch_fundamental_data, with each upstream
response supplied as data. The unguarded lookups (overview, FMP profile,
income, balance) propagate failures; the sector-P/E lookup is guarded
inside fetch_sector_pe_ratio. The pure derivations (sector pair, sector
P/E cell, debt/equity) are evaluated inside snapshotOf; they are total, so
their placement does not change which exceptions occur. -/
def fetch_fundamental_data (ticker : String) (inp : FetchIn) :
    Except PyErr Snapshot :=
  Except.bind (toPy inp.overview) (fun overview_response =>
  Except.bind (toPy inp.fmpProfile) (fun fmpr =>
  Except.bind (toPy inp.income) (fun income_response =>
  Except.bind (toPy inp.balance) (fun balance_response =>
  Except.bind (latestReport income_response) (fun latest_income =>
  Except.bind (latestReport balance_response) (fun latest_balance =>
  Except.bind (getNum latest_balance ("totalAssets")) (fun total_assets =>
  Except.bind (getNum latest_balance ("totalLiabilities")) (fun total_liabilities =>
  Except.bind (strIntCell overview_response ("MarketCapitalization")) (fun mcap =>
  Except.bind (strIntCell latest_income ("totalRevenue")) (fun rev =>
  Except.bind (strIntCell latest_income ("netIncome")) (fun ni =>
  Except.ok (snapshotOf ticker overview_response fmpr inp.sectorTable
    total_assets total_liabilities mcap rev ni))))))))))))

/-- The regex literal part of line 147. -/
def reLiteral : List Char := ("Target Entry Point: $").toList

/-- One-or-more digits, greedy, as a regex atom: the matched digits and
the remainder. -/
def matchDigits (l : List Char) : Option (List Char × List Char) :=
  let d := l.takeWhile Char.isDigit
  if d.isEmpty then none else some (d, l.dropWhile Char.isDigit)

/-- After the literal, the integer digits and the dot: match the
fractional digits and assemble the full matched text (regex group 0). -/
def afterDot (d1 r2 : List Char) : Option (List Char) :=
  match matchDigits r2 with
  | some (d2, _) => some (reLiteral ++ d1 ++ '.' :: d2)
  | none => none

/-- After the literal and the integer digits: require a dot next. -/
def afterDigits (d1 rest1 : List Char) : Option (List Char) :=
  match rest1 with
  | '.' :: r2 => afterDot d1 r2
  | _ => none

/-- Attempt to match the pattern of line 147 at the head of the list,
returning the full matched text (regex group 0). -/
def matchAt (l : List Char) : Option (List Char) :=
  if l.take reLiteral.length = reLiteral then
    match matchDigits (l.drop reLiteral.length) with
    | some (d1, rest1) => afterDigits d1 rest1
    | none => none
  else none

/-- re.search: try the pattern at each position from the left and return
the first match. -/
def reSearch : List Char → Option (List Char)
  | [] => none
  | c :: rest =>
    match matchAt (c :: rest) with
    | some m => some m
    | none => reSearch rest

/-- Lines 147-148 of app.py: the target price extracted from the model
response: match.group(0) of the first regex match, the fixed sentinel when
there is no match. Total, hence it never raises. -/
def target_price_of (full_response : String) : String :=
  match reSearch full_response.toList with
  | some m => String.mk m
  | none => ("Not Available")

/-- Network calls the button handler can trigger, in program order. -/
inductive NetCall
  | avOverview
  | fmpProfile
  | fmpSectorPe
  | avIncome
  | avBalance
  | openaiChat
deriving DecidableEq

/-- What the handler shows the user. -/
inductive UiMsg
  | results
  | invalidTicker
deriving DecidableEq

/-- Lines 160-181 of app.py: the Analyze Stock button handler. The guard
is Python string truthiness of the raw ticker: only the empty string is
rejected; any non-empty string, whitespace included, starts the fetch and
the model call. -/
def analyze_button_click (ticker : String) : List NetCall × UiMsg :=
  if ticker = "" then ([], UiMsg.invalidTicker)
  else
    ([NetCall.avOverview, NetCall.fmpProfile, NetCall.fmpSectorPe,
      NetCall.avIncome, NetCall.avBalance, NetCall.openaiChat],
     UiMsg.results)

/-! ## Helper lemmas about the regex matcher -/

lemma matchDigits_eq_some {l d r : List Char} (h : matchDigits l = some (d, r)) :
    d = l.takeWhile Char.isDigit ∧ d ≠ [] := by
  simp only [matchDigits] at h
  by_cases he : (l.takeWhile Char.isDigit).isEmpty
  · rw [if_pos he] at h; cases h
  · rw [if_neg he] at h
    injection h with h2
    have h3 : l.takeWhile Char.isDigit = d := congrArg Prod.fst h2
    refine ⟨h3.symm, ?_⟩
    rw [← h3]
    intro hnil
    rw [hnil] at he
    exact he rfl

lemma afterDot_shape {d1 r2 m : List Char} (h : afterDot d1 r2 = some m) :
    ∃ d2, d2 ≠ [] ∧ (∀ c ∈ d2, Char.isDigit c) ∧
      m = reLiteral ++ d1 ++ '.' :: d2 := by
  unfold afterDot at h
  split at h
  · rename_i d2 rest2 hd2
    obtain ⟨hw2, hn2⟩ := matchDigits_eq_some hd2
    injection h with h3
    refine ⟨d2, hn2, ?_, h3.symm⟩
    rw [hw2]
    exact fun c hc => List.mem_takeWhile_imp hc
  · cases h

lemma afterDigits_shape {d1 rest1 m : List Char}
    (h : afterDigits d1 rest1 = some m) :
    ∃ r2, rest1 = '.' :: r2 ∧ afterDot d1 r2 = some m := by
  unfold afterDigits at h
  split at h
  · rename_i r2
    exact ⟨r2, rfl, h⟩
  · cases h

lemma matchAt_shape {l m : List Char} (h : matchAt l = some m) :
    ∃ d1 d2, d1 ≠ [] ∧ d2 ≠ [] ∧ (∀ c ∈ d1, Char.isDigit c) ∧
      (∀ c ∈ d2, Char.isDigit c) ∧ m = reLiteral ++ d1 ++ '.' :: d2 := by
  unfold matchAt at h
  split at h
  · split at h
    · rename_i d1 rest1 hd1
      obtain ⟨hw1, hn1⟩ := matchDigits_eq_some hd1
      obtain ⟨r2, hr2, hdot⟩ := afterDigits_shape h
      obtain ⟨d2, hn2, hdig2, hm⟩ := afterDot_shape hdot
      refine ⟨d1, d2, hn1, hn2, ?_, hdig2, hm⟩
      rw [hw1]
      exact fun c hc => List.mem_takeWhile_imp hc
    · cases h
  · cases h

lemma reSearch_eq_some_exists {l m : List Char} (h : reSearch l = some m) :
    ∃ t : List Char, matchAt t = some m := by
  induction l with
  | nil => cases h
  | cons c rest ih =>
    unfold reSearch at h
    rcases hm : matchAt (c :: rest) with _ | m2 <;> rw [hm] at h
    · exact ih h
    · injection h with h2
      exact ⟨c :: rest, by rw [hm, h2]⟩

lemma reSearch_first (l : List Char) :
    (reSearch l = none ∧ ∀ i, matchAt (l.drop i) = none) ∨
    (∃ i m, (∀ j, j < i → matchAt (l.drop j) = none) ∧
      matchAt (l.drop i) = some m ∧ reSearch l = some m) := by
  induction l with
  | nil =>
    left
    refine ⟨rfl, ?_⟩
    intro i
    rw [List.drop_nil]
    decide
  | cons c rest ih =>
    rcases hm : matchAt (c :: rest) with _ | m
    · rcases ih with ⟨h1, h2⟩ | ⟨i, m, hlt, hsome, hres⟩
      · left
        constructor
        · unfold reSearch; rw [hm]; exact h1
        · intro i
          cases i with
          | zero => simpa using hm
          | succ k => simpa using h2 k
      · right
        refine ⟨i + 1, m, ?_, by simpa using hsome, ?_⟩
        · intro j hj
          cases j with
          | zero => simpa using hm
          | succ k => simpa using hlt k (Nat.lt_of_succ_lt_succ hj)
        · unfold reSearch; rw [hm]; exact hres
    · right
      refine ⟨0, m, ?_, by simpa using hm, ?_⟩
      · intro j hj; exact absurd hj (Nat.not_lt_zero j)
      · unfold reSearch; rw [hm]

/-- Claim C1 (amended): when the model response contains an occurrence of
the labeled dollar-amount pattern, the extraction step returns the FULL
matched text, label and dollar sign included (regex group 0), of the form
Target Entry Point followed by the dollar amount, not the bare number; when
no occurrence exists it returns the fixed sentinel Not Available. In
particular, the concrete response containing the line Target Entry Point
with amount 123.45 yields the whole line text, not the string 123.45. -/
theorem c1_extraction_full_match :
    (∀ s : String, target_price_of s = ("Not Available") ∨
      ∃ d1 d2 : List Char, d1 ≠ [] ∧ d2 ≠ [] ∧ (∀ c ∈ d1, Char.isDigit c) ∧
        (∀ c ∈ d2, Char.isDigit c) ∧
        target_price_of s =
          String.mk (("Target Entry Point: $").toList ++ d1 ++ '.' :: d2)) ∧
    target_price_of ("Key Takeaways: strong.\nTarget Entry Point: $123.45") =
      ("Target Entry Point: $123.45") := by
  constructor
  · intro s
    rcases h : reSearch s.toList with _ | m
    · left; unfold target_price_of; rw [h]
    · right
      obtain ⟨t, ht⟩ := reSearch_eq_some_exists h
      obtain ⟨d1, d2, hn1, hn2, hg1, hg2, hm⟩ := matchAt_shape ht
      refine ⟨d1, d2, hn1, hn2, hg1, hg2, ?_⟩
      unfold target_price_of
      rw [h, hm]
      rfl
  · rfl

/-- Claim C1, counterexample to the claim as stated: on a response that
contains the line Target Entry Point with amount 123.45, the code returns
the whole matched line, not exactly the string 123.45. -/
theorem c1_counterexample :
    target_price_of ("Target Entry Point: $123.45") =
      ("Target Entry Point: $123.45") ∧
    target_price_of ("Target Entry Point: $123.45") ≠ ("123.45") := by
  exact ⟨rfl, by decide⟩

/-- Claim C8 (amended): the extraction step locates the FIRST occurrence of
the labeled dollar-amount pattern (re.search scans left to right), not the
last, and it returns normally on every response string: either the sentinel
with no position matching, or the text of the match at the least matching
position. -/
theorem c8_first_occurrence (s : String) :
    (target_price_of s = ("Not Available") ∧
      ∀ i, matchAt (s.toList.drop i) = none) ∨
    (∃ i m, (∀ j, j < i → matchAt (s.toList.drop j) = none) ∧
      matchAt (s.toList.drop i) = some m ∧ target_price_of s = String.mk m) := by
  rcases reSearch_first s.toList with ⟨h1, h2⟩ | ⟨i, m, hlt, hsome, hres⟩
  · left
    exact ⟨by unfold target_price_of; rw [h1], h2⟩
  · right
    exact ⟨i, m, hlt, hsome, by unfold target_price_of; rw [hres]⟩

/-- Claim C8, counterexample to the claim as stated: with two occurrences
of the labeled dollar line, extraction returns the text of the first one,
which differs from the text of the last one. -/
theorem c8_counterexample :
    target_price_of
        ("Target Entry Point: $1.00 and later Target Entry Point: $2.00") =
      ("Target Entry Point: $1.00") ∧
    ("Target Entry Point: $1.00") ≠ ("Target Entry Point: $2.00") := by
  exact ⟨rfl, by decide⟩

/-- Claim C3 (amended): the Analyze Stock handler rejects exactly the empty
ticker with the invalid-ticker message and no network calls; a ticker that
is whitespace only is truthy in Python, so it proceeds to the data fetches
and the model call like any other non-empty string. -/
theorem c3_empty_ticker_only :
    analyze_button_click ("") = ([], UiMsg.invalidTicker) ∧
    analyze_button_click (" ") =
      ([NetCall.avOverview, NetCall.fmpProfile, NetCall.fmpSectorPe,
        NetCall.avIncome, NetCall.avBalance, NetCall.openaiChat],
       UiMsg.results) := by
  exact ⟨rfl, by decide⟩

/-- Claim C3, counterexample to the claim as stated: a whitespace-only
ticker triggers the network calls and shows results, not the rejection
message. -/
theorem c3_counterexample :
    (analyze_button_click (" ")).1 ≠ [] ∧
    (analyze_button_click (" ")).2 ≠ UiMsg.invalidTicker := by
  exact ⟨by decide, by decide⟩

/-- Claim C7 (amended): on a non-empty sector table, fetch_sector_pe_ratio
resolves the sector by EXACT string lookup (a Python dict built keyed on
the raw sector strings, later entries overriding earlier ones); a sector
string differing only in case from the table entry is a missing key and
yields the sentinel, so the lookup is case-sensitive, not
case-insensitive. -/
theorem c7_exact_match_lookup (sector : String) (data : List (String × ℚ))
    (hne : data ≠ []) :
    fetch_sector_pe_ratio sector (Except.ok data) =
      (match List.lookup sector data.reverse with
       | some pe => Cell.num pe
       | none => Cell.str ("N/A")) := by
  unfold fetch_sector_pe_ratio
  match data, hne with
  | d :: rest, _ => rfl

/-- Claim C7, witness: the theorem applied to a concrete one-row table
with an exactly matching sector string. -/
theorem c7_witness :
    fetch_sector_pe_ratio ("Technology")
        (Except.ok [(("Technology"), (25 : ℚ))]) = Cell.num 25 := by
  have h := c7_exact_match_lookup ("Technology")
    [(("Technology"), (25 : ℚ))] (by decide)
  exact h.trans (by rfl)

/-- Claim C7, counterexample to the claim as stated: a sector string
differing only in case from the single table entry resolves to the
sentinel, not to that sector average. -/
theorem c7_counterexample :
    fetch_sector_pe_ratio ("technology")
        (Except.ok [(("Technology"), (25 : ℚ))]) = Cell.str ("N/A") ∧
    Cell.str ("N/A") ≠ Cell.num 25 := by
  exact ⟨rfl, by decide⟩

/-- Claim C6 (amended): with both balance fields present and parsed to
nonzero floats, the ratio divides by the equity whenever the equity
totalAssets minus totalLiabilities is nonzero, including NEGATIVE equity,
which produces a negative ratio rather than the sentinel; the sentinel
arises only when the equity is exactly zero (Python float truthiness on
line 38), or when an operand is missing or zero. -/
theorem c6_equity_nonzero_divides (a l : ℚ) (ha : a ≠ 0) (hl : l ≠ 0) :
    (a - l ≠ 0 →
      debtEquityValue (some l) (shareholderEquity (some a) (some l)) =
        DEValue.val (l / (a - l))) ∧
    (a - l = 0 →
      debtEquityValue (some l) (shareholderEquity (some a) (some l)) =
        DEValue.na) := by
  constructor
  · intro h
    simp [shareholderEquity, debtEquityValue, ha, hl, h]
  · intro h
    simp [shareholderEquity, debtEquityValue, ha, hl, h]

/-- Claim C6, witness: the theorem applied at assets 3 and liabilities 1,
where the positive equity 2 gives the ratio 1 / 2. -/
theorem c6_witness :
    debtEquityValue (some 1) (shareholderEquity (some 3) (some 1)) =
      DEValue.val (1 / (3 - 1)) :=
  (c6_equity_nonzero_divides 3 1 (by norm_num) (by norm_num)).1 (by norm_num)

/-- Claim C6, counterexample to the claim as stated: with assets 100 and
liabilities 150, both present, the equity is negative, yet the code divides
and renders the negative ratio -3.0 instead of leaving the value undefined
at the sentinel. -/
theorem c6_counterexample :
    getNum [(("totalAssets"), ("100")), (("totalLiabilities"), ("150"))]
        ("totalAssets") = Except.ok (some 100) ∧
    getNum [(("totalAssets"), ("100")), (("totalLiabilities"), ("150"))]
        ("totalLiabilities") = Except.ok (some 150) ∧
    deCell (debtEquityValue (some 150)
        (shareholderEquity (some 100) (some 150))) = ("-3.0") ∧
    ("-3.0") ≠ ("N/A") := by
  refine ⟨rfl, rfl, ?_, by decide⟩
  rw [show shareholderEquity (some 100) (some 150) = some (-50) from by
    norm_num [shareholderEquity]]
  rw [show debtEquityValue (some 150) (some (-50)) = DEValue.val (-3) from by
    norm_num [debtEquityValue]]
  simp only [deCell]
  rw [show pyRound2 (-3) = -3 from by
    simp only [pyRound2, roundHalfEven]; norm_num [Rat.floor]]
  simp only [pyStrFloat]
  rw [show ((-3 : ℚ)) * 100 = -300 from by norm_num]
  rw [show Rat.floor ((-300 : ℚ)) = -300 from by norm_num [Rat.floor]]
  rw [if_pos (show ((-3 : ℚ)) < 0 from by norm_num)]
  decide

/-- Claim C2 (amended): the aggregator renders every magnitude cell with
the Python comma format specifier on the integer value, in every band: no
suffixed M or B forms exist in the code; in particular 999999, one million
and one billion render as comma-grouped digit strings. -/
theorem c2_comma_formatting :
    (∀ (d : List (String × String)) (k s : String) (n : Int),
        pyGet d k = some s → pyInt? s = some n →
        strIntCell d k = Except.ok (pyCommaFmt n)) ∧
    pyCommaFmt 999999 = ("999,999") ∧
    pyCommaFmt 1000000 = ("1,000,000") ∧
    pyCommaFmt 1000000000 = ("1,000,000,000") := by
  refine ⟨?_, by decide, by decide, by decide⟩
  intro d k s n h1 h2
  have hs : s ≠ "" := by
    intro he
    rw [he] at h2
    rw [show pyInt? ("") = none from rfl] at h2
    cases h2
  unfold strIntCell
  rw [h1]
  simp only [if_neg hs, h2]

/-- Claim C2, witness: the theorem applied to a concrete overview row with
market capitalization one million, rendered with commas. -/
theorem c2_witness :
    strIntCell [(("MarketCapitalization"), ("1000000"))]
        ("MarketCapitalization") = Except.ok (pyCommaFmt 1000000) :=
  c2_comma_formatting.1 [(("MarketCapitalization"), ("1000000"))]
    ("MarketCapitalization") ("1000000") 1000000 rfl (by decide)

/-- Claim C2, counterexample to the claim as stated: a revenue of exactly
one million renders as the comma form, not as the suffixed form 1.00M. -/
theorem c2_counterexample :
    List.lookup ("Revenue")
        ((fetch_fundamental_data ("T")
            ⟨Except.ok [], Except.ok ⟨0, none⟩, Except.ok [],
             Except.ok ⟨some [[(("totalRevenue"), ("1000000"))]]⟩,
             Except.ok ⟨none⟩⟩).toOption.getD []) =
      some (Cell.str ("1,000,000")) ∧
    ("1,000,000") ≠ ("1.00M") := by
  exact ⟨rfl, by decide⟩

/-! ## Inversion helpers for the aggregator -/

lemma pybind_eq_ok {α β : Type} {x : Except PyErr α} {f : α → Except PyErr β}
    {b : β} (h : Except.bind x f = Except.ok b) :
    ∃ a, x = Except.ok a ∧ f a = Except.ok b := by
  cases x with
  | error e => exact absurd h (by simp [Except.bind])
  | ok a => exact ⟨a, rfl, h⟩

lemma toPy_eq_ok {α : Type} {x : Except Unit α} {a : α}
    (h : toPy x = Except.ok a) : x = Except.ok a := by
  cases x with
  | error e => exact absurd h (by simp [toPy])
  | ok b => unfold toPy at h; injection h with h2; rw [h2]

lemma fetch_ok_inv {t : String} {inp : FetchIn} {s : Snapshot}
    (h : fetch_fundamental_data t inp = Except.ok s) :
    ∃ ov fmpr inc bal li lb ta tl mcap rev ni,
      inp.overview = Except.ok ov ∧ inp.fmpProfile = Except.ok fmpr ∧
      inp.income = Except.ok inc ∧ inp.balance = Except.ok bal ∧
      latestReport inc = Except.ok li ∧ latestReport bal = Except.ok lb ∧
      getNum lb ("totalAssets") = Except.ok ta ∧
      getNum lb ("totalLiabilities") = Except.ok tl ∧
      strIntCell ov ("MarketCapitalization") = Except.ok mcap ∧
      strIntCell li ("totalRevenue") = Except.ok rev ∧
      strIntCell li ("netIncome") = Except.ok ni ∧
      s = snapshotOf t ov fmpr inp.sectorTable ta tl mcap rev ni := by
  unfold fetch_fundamental_data at h
  obtain ⟨ov, hov, h⟩ := pybind_eq_ok h
  obtain ⟨fmpr, hfmpr, h⟩ := pybind_eq_ok h
  obtain ⟨inc, hinc, h⟩ := pybind_eq_ok h
  obtain ⟨bal, hbal, h⟩ := pybind_eq_ok h
  obtain ⟨li, hli, h⟩ := pybind_eq_ok h
  obtain ⟨lb, hlb, h⟩ := pybind_eq_ok h
  obtain ⟨ta, hta, h⟩ := pybind_eq_ok h
  obtain ⟨tl, htl, h⟩ := pybind_eq_ok h
  obtain ⟨mcap, hmcap, h⟩ := pybind_eq_ok h
  obtain ⟨rev, hrev, h⟩ := pybind_eq_ok h
  obtain ⟨ni, hni, h⟩ := pybind_eq_ok h
  injection h with h2
  exact ⟨ov, fmpr, inc, bal, li, lb, ta, tl, mcap, rev, ni,
    toPy_eq_ok hov, toPy_eq_ok hfmpr, toPy_eq_ok hinc, toPy_eq_ok hbal,
    hli, hlb, hta, htl, hmcap, hrev, hni, h2.symm⟩

/-- Claim C9: whenever fetch_fundamental_data returns a snapshot, the
snapshot is the flat mapping with exactly the fifteen fixed metric names,
in order, independent of which upstream fields were present. -/
theorem c9_stable_key_set (t : String) (inp : FetchIn) (s : Snapshot)
    (h : fetch_fundamental_data t inp = Except.ok s) :
    s.map Prod.fst =
      [("Ticker"), ("Company Name"), ("Sector"), ("Industry"),
       ("Sector P/E"), ("Market Cap"), ("Revenue"), ("Net Income"),
       ("Total Assets"), ("Total Liabilities"), ("P/E Ratio"), ("EPS"),
       ("Debt/Equity Ratio"), ("ROE"), ("ROA")] := by
  obtain ⟨ov, fmpr, inc, bal, li, lb, ta, tl, mcap, rev, ni,
    _, _, _, _, _, _, _, _, _, _, _, hs⟩ := fetch_ok_inv h
  rw [hs]
  rfl

/-- Claim C9, witness: the theorem applied to a concrete run in which every
upstream body is empty, so every field is at its sentinel. -/
theorem c9_witness :
    (snapshotOf ("T") [] ⟨0, none⟩ (Except.ok []) none none ("N/A") ("N/A")
        ("N/A")).map Prod.fst =
      [("Ticker"), ("Company Name"), ("Sector"), ("Industry"),
       ("Sector P/E"), ("Market Cap"), ("Revenue"), ("Net Income"),
       ("Total Assets"), ("Total Liabilities"), ("P/E Ratio"), ("EPS"),
       ("Debt/Equity Ratio"), ("ROE"), ("ROA")] :=
  c9_stable_key_set ("T")
    ⟨Except.ok [], Except.ok ⟨0, none⟩, Except.ok [], Except.ok ⟨none⟩,
     Except.ok ⟨none⟩⟩
    (snapshotOf ("T") [] ⟨0, none⟩ (Except.ok []) none none ("N/A") ("N/A")
      ("N/A")) rfl

lemma fetch_no_reports (t : String) (ov : List (String × String))
    (fmpr : FmpResp) (sect : Except Unit (List (String × ℚ))) :
    fetch_fundamental_data t ⟨Except.ok ov, Except.ok fmpr, sect,
        Except.ok ⟨none⟩, Except.ok ⟨none⟩⟩ =
      Except.bind (strIntCell ov ("MarketCapitalization")) (fun mcap =>
        Except.ok (snapshotOf t ov fmpr sect none none mcap ("N/A")
          ("N/A"))) := rfl

/-- Claim C4 (amended): absent fields and an ABSENT annualReports key are
non-fatal: with the overview, profile, income and balance lookups
delivered and both statements lacking annualReports, the fetch returns a
snapshot in which the income and balance driven fields all carry the
sentinel, and this holds for ANY outcome of the sector-P/E lookup, which
is the only guarded call. However (see the counterexample) an
annualReports key present as an EMPTY list raises IndexError, and a
transport failure of an unguarded lookup aborts the whole fetch. -/
theorem c4_absent_reports_sentinels (t : String)
    (ov : List (String × String)) (fmpr : FmpResp)
    (sect : Except Unit (List (String × ℚ))) (mcap : String)
    (hm : strIntCell ov ("MarketCapitalization") = Except.ok mcap) :
    fetch_fundamental_data t ⟨Except.ok ov, Except.ok fmpr, sect,
        Except.ok ⟨none⟩, Except.ok ⟨none⟩⟩ =
      Except.ok (snapshotOf t ov fmpr sect none none mcap ("N/A")
        ("N/A")) ∧
    List.lookup ("Revenue")
        (snapshotOf t ov fmpr sect none none mcap ("N/A") ("N/A")) =
      some (Cell.str ("N/A")) ∧
    List.lookup ("Net Income")
        (snapshotOf t ov fmpr sect none none mcap ("N/A") ("N/A")) =
      some (Cell.str ("N/A")) ∧
    List.lookup ("Total Assets")
        (snapshotOf t ov fmpr sect none none mcap ("N/A") ("N/A")) =
      some (Cell.str ("N/A")) ∧
    List.lookup ("Total Liabilities")
        (snapshotOf t ov fmpr sect none none mcap ("N/A") ("N/A")) =
      some (Cell.str ("N/A")) ∧
    List.lookup ("Debt/Equity Ratio")
        (snapshotOf t ov fmpr sect none none mcap ("N/A") ("N/A")) =
      some (Cell.str ("N/A")) := by
  refine ⟨?_, rfl, rfl, rfl, rfl, rfl⟩
  rw [fetch_no_reports, hm]
  rfl

/-- Claim C4, witness: the theorem applied with empty bodies and a FAILED
sector-P/E lookup, which still produces the sentinel snapshot. -/
theorem c4_witness :
    fetch_fundamental_data ("T") ⟨Except.ok [], Except.ok ⟨0, none⟩,
        Except.error (), Except.ok ⟨none⟩, Except.ok ⟨none⟩⟩ =
      Except.ok (snapshotOf ("T") [] ⟨0, none⟩ (Except.error ()) none none
        ("N/A") ("N/A") ("N/A")) ∧
    List.lookup ("Revenue")
        (snapshotOf ("T") [] ⟨0, none⟩ (Except.error ()) none none ("N/A")
          ("N/A") ("N/A")) = some (Cell.str ("N/A")) ∧
    List.lookup ("Net Income")
        (snapshotOf ("T") [] ⟨0, none⟩ (Except.error ()) none none ("N/A")
          ("N/A") ("N/A")) = some (Cell.str ("N/A")) ∧
    List.lookup ("Total Assets")
        (snapshotOf ("T") [] ⟨0, none⟩ (Except.error ()) none none ("N/A")
          ("N/A") ("N/A")) = some (Cell.str ("N/A")) ∧
    List.lookup ("Total Liabilities")
        (snapshotOf ("T") [] ⟨0, none⟩ (Except.error ()) none none ("N/A")
          ("N/A") ("N/A")) = some (Cell.str ("N/A")) ∧
    List.lookup ("Debt/Equity Ratio")
        (snapshotOf ("T") [] ⟨0, none⟩ (Except.error ()) none none ("N/A")
          ("N/A") ("N/A")) = some (Cell.str ("N/A")) :=
  c4_absent_reports_sentinels ("T") [] ⟨0, none⟩ (Except.error ()) ("N/A")
    rfl

/-- Claim C4, counterexample to the claim as stated: an annualReports key
present as an empty list makes the fetch raise IndexError instead of
yielding sentinel fields, and a transport failure of the first, unguarded
overview lookup aborts the whole fetch. -/
theorem c4_counterexample :
    fetch_fundamental_data ("T") ⟨Except.ok [], Except.ok ⟨200, none⟩,
        Except.ok [], Except.ok ⟨none⟩, Except.ok ⟨some []⟩⟩ =
      Except.error PyErr.indexError ∧
    fetch_fundamental_data ("T") ⟨Except.error (), Except.ok ⟨200, none⟩,
        Except.ok [], Except.ok ⟨none⟩, Except.ok ⟨none⟩⟩ =
      Except.error PyErr.netError := by
  exact ⟨rfl, rfl⟩

/-- Claim C5 (amended): when the latest balance report lacks totalAssets or
lacks totalLiabilities, any snapshot the fetch returns carries the sentinel
for the Debt/Equity Ratio; the missing field itself never raises, though
the fetch can still raise for an unrelated reason, in particular when the
OTHER balance field is present with a non-numeric string (see the
counterexample), so the claim holds except for its unconditional
never-raises part. -/
theorem c5_missing_field_sentinel (t : String) (inp : FetchIn)
    (rep : List (String × String)) (rs : List (List (String × String)))
    (s : Snapshot)
    (hbal : inp.balance = Except.ok ⟨some (rep :: rs)⟩)
    (hmiss : pyGet rep ("totalAssets") = none ∨
      pyGet rep ("totalLiabilities") = none)
    (h : fetch_fundamental_data t inp = Except.ok s) :
    List.lookup ("Debt/Equity Ratio") s = some (Cell.str ("N/A")) := by
  obtain ⟨ov, fmpr, inc, bal, li, lb, ta, tl, mcap, rev, ni,
    _, _, _, hbal2, _, hlb, hta, htl, _, _, _, hs⟩ := fetch_ok_inv h
  rw [hbal] at hbal2
  injection hbal2 with hbal3
  rw [← hbal3] at hlb
  rw [show latestReport ⟨some (rep :: rs)⟩ = Except.ok rep from rfl] at hlb
  injection hlb with hlb2
  rw [← hlb2] at hta htl
  rw [hs]
  rw [show List.lookup ("Debt/Equity Ratio")
      (snapshotOf t ov fmpr inp.sectorTable ta tl mcap rev ni) =
    some (Cell.str (deCell (debtEquityValue tl (shareholderEquity ta tl))))
    from rfl]
  rcases hmiss with hm | hm
  · have hta2 : ta = none := by
      unfold getNum at hta
      rw [hm] at hta
      injection hta with h3
      exact h3.symm
    rw [hta2]
    cases tl <;> rfl
  · have htl2 : tl = none := by
      unfold getNum at htl
      rw [hm] at htl
      injection htl with h3
      exact h3.symm
    rw [htl2]
    cases ta <;> rfl

/-- Claim C5, witness: the theorem applied to a concrete balance report
lacking totalAssets, whose returned snapshot carries the Debt/Equity
sentinel. -/
theorem c5_witness :
    List.lookup ("Debt/Equity Ratio")
        (snapshotOf ("T") [] ⟨0, none⟩ (Except.ok []) none (some 50)
          ("N/A") ("N/A") ("N/A")) = some (Cell.str ("N/A")) :=
  c5_missing_field_sentinel ("T")
    ⟨Except.ok [], Except.ok ⟨0, none⟩, Except.ok [], Except.ok ⟨none⟩,
     Except.ok ⟨some [[(("totalLiabilities"), ("50"))]]⟩⟩
    [(("totalLiabilities"), ("50"))] []
    (snapshotOf ("T") [] ⟨0, none⟩ (Except.ok []) none (some 50) ("N/A")
      ("N/A") ("N/A"))
    rfl (Or.inl rfl) rfl

/-- Claim C5, counterexample to the claim as stated: totalAssets is
missing, yet the fetch raises, because the present totalLiabilities value
is a non-numeric string handed to float(). -/
theorem c5_counterexample :
    fetch_fundamental_data ("T") ⟨Except.ok [], Except.ok ⟨0, none⟩,
        Except.ok [], Except.ok ⟨none⟩,
        Except.ok ⟨some [[(("totalLiabilities"), ("abc"))]]⟩⟩ =
      Except.error PyErr.valueError := by
  exact rfl

/-- Claim C10: a balance field present with the numeric value zero is
treated exactly like a missing field, because both the string truthiness
guard and the float truthiness guards on lines 35-38 and 50-51 are falsy
at zero: the corresponding Total Assets or Total Liabilities entry renders
as the sentinel, and the Debt/Equity Ratio renders as the sentinel. -/
theorem c10_zero_treated_missing (t : String) (inp : FetchIn)
    (rep : List (String × String)) (rs : List (List (String × String)))
    (s : Snapshot)
    (hbal : inp.balance = Except.ok ⟨some (rep :: rs)⟩)
    (h : fetch_fundamental_data t inp = Except.ok s) :
    (∀ v, pyGet rep ("totalAssets") = some v → pyFloat? v = some 0 →
      List.lookup ("Total Assets") s = some (Cell.str ("N/A")) ∧
      List.lookup ("Debt/Equity Ratio") s = some (Cell.str ("N/A"))) ∧
    (∀ v, pyGet rep ("totalLiabilities") = some v → pyFloat? v = some 0 →
      List.lookup ("Total Liabilities") s = some (Cell.str ("N/A")) ∧
      List.lookup ("Debt/Equity Ratio") s = some (Cell.str ("N/A"))) := by
  obtain ⟨ov, fmpr, inc, bal, li, lb, ta, tl, mcap, rev, ni,
    _, _, _, hbal2, _, hlb, hta, htl, _, _, _, hs⟩ := fetch_ok_inv h
  rw [hbal] at hbal2
  injection hbal2 with hbal3
  rw [← hbal3] at hlb
  rw [show latestReport ⟨some (rep :: rs)⟩ = Except.ok rep from rfl] at hlb
  injection hlb with hlb2
  rw [← hlb2] at hta htl
  constructor
  · intro v hv hz
    have hne : v ≠ "" := by
      intro he
      rw [he] at hz
      rw [show pyFloat? ("") = none from rfl] at hz
      cases hz
    have hta2 : ta = some 0 := by
      unfold getNum at hta
      rw [hv] at hta
      simp only [hz, if_neg hne, Except.ok.injEq] at hta
      exact hta.symm
    rw [hs]
    rw [show List.lookup ("Total Assets")
        (snapshotOf t ov fmpr inp.sectorTable ta tl mcap rev ni) =
      some (Cell.str (floatCell ta)) from rfl,
      show List.lookup ("Debt/Equity Ratio")
        (snapshotOf t ov fmpr inp.sectorTable ta tl mcap rev ni) =
      some (Cell.str (deCell (debtEquityValue tl (shareholderEquity ta tl))))
      from rfl]
    rw [hta2]
    refine ⟨rfl, ?_⟩
    cases tl <;> rfl
  · intro v hv hz
    have hne : v ≠ "" := by
      intro he
      rw [he] at hz
      rw [show pyFloat? ("") = none from rfl] at hz
      cases hz
    have htl2 : tl = some 0 := by
      unfold getNum at htl
      rw [hv] at htl
      simp only [hz, if_neg hne, Except.ok.injEq] at htl
      exact htl.symm
    rw [hs]
    rw [show List.lookup ("Total Liabilities")
        (snapshotOf t ov fmpr inp.sectorTable ta tl mcap rev ni) =
      some (Cell.str (floatCell tl)) from rfl,
      show List.lookup ("Debt/Equity Ratio")
        (snapshotOf t ov fmpr inp.sectorTable ta tl mcap rev ni) =
      some (Cell.str (deCell (debtEquityValue tl (shareholderEquity ta tl))))
      from rfl]
    rw [htl2]
    refine ⟨rfl, ?_⟩
    cases ta with
    | none => rfl
    | some a =>
      rw [show shareholderEquity (some a) (some 0) = none from by
        simp [shareholderEquity]]
      rfl

/-- Claim C10, witness: the theorem applied to a balance report whose
totalAssets is the string parsing to zero, with totalLiabilities fifty:
both the Total Assets entry and the Debt/Equity Ratio render as the
sentinel. -/
theorem c10_witness :
    List.lookup ("Total Assets")
        (snapshotOf ("T") [] ⟨0, none⟩ (Except.ok []) (some 0) (some 50)
          ("N/A") ("N/A") ("N/A")) = some (Cell.str ("N/A")) ∧
    List.lookup ("Debt/Equity Ratio")
        (snapshotOf ("T") [] ⟨0, none⟩ (Except.ok []) (some 0) (some 50)
          ("N/A") ("N/A") ("N/A")) = some (Cell.str ("N/A")) :=
  (c10_zero_treated_missing ("T")
    ⟨Except.ok [], Except.ok ⟨0, none⟩, Except.ok [], Except.ok ⟨none⟩,
     Except.ok ⟨some [[(("totalAssets"), ("0")),
       (("totalLiabilities"), ("50"))]]⟩⟩
    [(("totalAssets"), ("0")), (("totalLiabilities"), ("50"))] []
    (snapshotOf ("T") [] ⟨0, none⟩ (Except.ok []) (some 0) (some 50)
      ("N/A") ("N/A") ("N/A"))
    rfl rfl).1 ("0") rfl (by decide)

/-- Claim C8, witness: the theorem applied to a concrete response with no
occurrence of the pattern, settling on the sentinel branch. -/
theorem c8_witness :
    (target_price_of ("abc") = ("Not Available") ∧
      ∀ i, matchAt ((String.toList ("abc")).drop i) = none) ∨
    (∃ i m, (∀ j, j < i → matchAt ((String.toList ("abc")).drop j) = none) ∧
      matchAt ((String.toList ("abc")).drop i) = some m ∧
      target_price_of ("abc") = String.mk m) :=
  c8_first_occurrence ("abc")
